import Mathlib

/-!
A shallow embedding of the reloaderoo proxy engine — the `MCPProxy` class:
child lifecycle (`startChildServer`, `stopChildServer`, `stop`), capability
mirroring (`mirrorChildCapabilities`, `notifyCapabilityChanges`), the
synthetic restart tool (`handleRestartServer`), and the event handlers the
proxy registers (`registeredHandlers`, `dispatch`).

The child process and the transport are modelled by a `ChildBehavior`
record describing how one (re)connect cycle unfolds (whether the
spawn/handshake succeeds, how long it takes, and how the child answers the
`tools/list` query).  Thrown JavaScript errors are modelled by an explicit
`error` field in `StepResult`; functions that catch all errors are total
functions without that field.
-/

namespace Reloaderoo

/-- A tool descriptor; only the name is relevant to the proxied behaviour. -/
structure Tool where
  name : String
deriving DecidableEq, Repr

/-- The capability categories for which a list-changed notification exists. -/
inductive CapCategory
  | tools
  | prompts
  | resources
deriving DecidableEq, Repr

/-- Upstream-visible effects of a proxy operation: a list-changed
notification sent to the upstream client, or an operator-facing log line
(the restart tool logs the `force` argument it received). -/
inductive Event
  | listChanged (c : CapCategory)
  | logRestart (force : Bool)
deriving DecidableEq, Repr

def Event.isListChanged : Event → Bool
  | .listChanged _ => true
  | .logRestart _ => false

def Event.isLog : Event → Bool
  | .logRestart _ => true
  | .listChanged _ => false

/-- An error raised by the child while answering `tools/list`: either a
protocol-level `McpError` carrying a numeric code, or any other error. -/
inductive ChildError
  | mcp (code : Int) (msg : String)
  | plain (msg : String)
deriving DecidableEq, Repr

/-- `ErrorCode.MethodNotFound` of the MCP SDK (JSON-RPC method-not-found). -/
def methodNotFoundCode : Int := -32601

/-- The source's check `error instanceof McpError && error.code ===
ErrorCode.MethodNotFound`. -/
def ChildError.isMethodNotFound : ChildError → Bool
  | .mcp code _ => code == methodNotFoundCode
  | .plain _ => false

def ChildError.message : ChildError → String
  | .mcp _ m => m
  | .plain m => m

/-- Outcome of the `childClient.listTools()` call. -/
inductive ListToolsOutcome
  | ok (tools : List Tool)
  | err (e : ChildError)
deriving DecidableEq, Repr

/-- Errors thrown out of the proxy's own async operations. -/
inductive ProxyError
  | notConnected
  | connectFailure (msg : String)
  | child (e : ChildError)
deriving DecidableEq, Repr

/-- The `error.message` the restart tool embeds in its failure text. -/
def ProxyError.message : ProxyError → String
  | .notConnected => "Child client not connected"
  | .connectFailure m => m
  | .child e => e.message

/-- Modelled from the spec: `ProxyConfig` (src `types.ts` is absent).
Child command and arguments as used by `startChildServer`, plus the restart
policy fields of spec §3/§6 and the CLI environment-variable help
(`MCPDEV_PROXY_AUTO_RESTART`, `MCPDEV_PROXY_RESTART_LIMIT`,
`MCPDEV_PROXY_TIMEOUT`). -/
structure ProxyConfig where
  childCommand : String
  childArgs : List String
  autoRestart : Bool
  maxRestarts : Nat
  restartDelay : Nat
  restartTimeout : Nat
deriving DecidableEq, Repr

/-- The mutable fields of `MCPProxy`, together with the copies the request
handlers hold (`handlerClient`, `handlerTools`, kept in sync by
`updateHandlersWithChildClient`) and the upstream server connection.
`childClient` / `childTransport` model non-nullness of those fields;
`lastSpawn` records the command and arguments of the most recent child
spawn. -/
structure ProxyState where
  childClient : Bool
  childTransport : Bool
  childTools : List Tool
  handlerClient : Bool
  handlerTools : List Tool
  restartInProgress : Bool
  isShuttingDown : Bool
  serverOpen : Bool
  lastSpawn : Option (String × List String)
deriving DecidableEq, Repr

/-- Environment model: how the child behaves during one (re)connect cycle.
`connectMs` is the wall-clock duration of spawn plus handshake; the source
awaits `childClient.connect()` with no deadline, so no definition below
compares it with `restartTimeout`.  `connectErr` is the message of the
error thrown when the handshake fails. -/
structure ChildBehavior where
  connectOk : Bool
  connectMs : Nat
  connectErr : String
  listTools : ListToolsOutcome
deriving DecidableEq, Repr

/-- Whether the two close calls of `stopChildServer` succeed.  The source
wraps each in try/catch and only logs a failure, so neither outcome can
influence the resulting state. -/
structure StopOutcomes where
  clientCloseOk : Bool
  transportCloseOk : Bool
deriving DecidableEq, Repr

/-- Result of an async proxy operation: the new proxy state, the
upstream-visible events emitted, and `some e` when the operation threw. -/
structure StepResult where
  state : ProxyState
  events : List Event
  error : Option ProxyError
deriving DecidableEq, Repr

/-- The result object of an MCP tool call: its text content and the
optional `isError` mark (absent encoded as `false`). -/
structure CallToolResult where
  text : String
  isError : Bool
deriving DecidableEq, Repr

/-- Full outcome of a `restart_server` tool invocation: the returned tool
result plus the state change and events it caused. -/
structure RestartCall where
  result : CallToolResult
  state : ProxyState
  events : List Event
deriving DecidableEq, Repr

/-- `updateHandlersWithChildClient`: push the current child client and tool
list into every request handler. -/
def updateHandlersWithChildClient (s : ProxyState) : ProxyState :=
  { s with handlerClient := s.childClient, handlerTools := s.childTools }

/-- `stopChildServer`: if a child client exists, close it (failure swallowed
and logged), null it, clear the tool cache and re-sync the handlers; if a
transport exists, close it (failure swallowed) and null it; finally clear
the tool cache again unconditionally. -/
def stopChildServer (s : ProxyState) (_o : StopOutcomes) : ProxyState :=
  let s1 :=
    if s.childClient then
      updateHandlersWithChildClient { s with childClient := false, childTools := [] }
    else s
  let s2 := if s1.childTransport then { s1 with childTransport := false } else s1
  { s2 with childTools := [] }

/-- The three upstream notifications sent by `notifyCapabilityChanges`, in
source order: tools, prompts, resources list-changed. -/
def notifyCapabilityChanges : List Event :=
  [Event.listChanged CapCategory.tools, Event.listChanged CapCategory.prompts,
   Event.listChanged CapCategory.resources]

/-- `mirrorChildCapabilities`: throw if no child client; otherwise query the
child's tool list.  On success cache it, re-sync the handlers, and — when a
restart is in progress — send the change notifications and clear the flag.
On a `MethodNotFound` error degrade to an empty cache (clearing the
restart flag without notifying) and return normally.  Rethrow any other
error with the state unchanged. -/
def mirrorChildCapabilities (s : ProxyState) (lt : ListToolsOutcome) : StepResult :=
  if s.childClient = false then
    { state := s, events := [], error := some ProxyError.notConnected }
  else
    match lt with
    | .ok tools =>
      let s1 := updateHandlersWithChildClient { s with childTools := tools }
      if s1.restartInProgress then
        { state := { s1 with restartInProgress := false }
          events := notifyCapabilityChanges
          error := none }
      else
        { state := s1, events := [], error := none }
    | .err e =>
      if e.isMethodNotFound then
        let s1 := updateHandlersWithChildClient { s with childTools := [] }
        let s2 := if s1.restartInProgress then { s1 with restartInProgress := false } else s1
        { state := s2, events := [], error := none }
      else
        { state := s, events := [], error := some (ProxyError.child e) }

/-- `startChildServer`: tear down any existing child, create a new transport
and client from the configured command and arguments, await the handshake
(with no deadline), then mirror the child's capabilities.  When the
handshake fails the freshly assigned fields stay assigned and the error
propagates to the caller. -/
def startChildServer (cfg : ProxyConfig) (s : ProxyState) (b : ChildBehavior)
    (o : StopOutcomes) : StepResult :=
  let s0 := stopChildServer s o
  let s1 := { s0 with
    childTransport := true
    childClient := true
    lastSpawn := some (cfg.childCommand, cfg.childArgs) }
  if b.connectOk then
    mirrorChildCapabilities s1 b.listTools
  else
    { state := s1, events := [], error := some (ProxyError.connectFailure b.connectErr) }

/-- `start`: start the child first, then connect the proxy server to its
stdio transport.  Called exactly once at process startup, with
`restartInProgress = false`. -/
def start (cfg : ProxyConfig) (s : ProxyState) (b : ChildBehavior)
    (o : StopOutcomes) : StepResult :=
  let r := startChildServer cfg s b o
  match r.error with
  | none => { r with state := { r.state with serverOpen := true } }
  | some _ => r

/-- `stop`: return immediately when already shutting down; otherwise set the
flag, stop the child, and close the upstream server.  Failures during
shutdown are logged, never rethrown.  `closeOk` is whether `server.close()`
succeeded. -/
def stop (s : ProxyState) (o : StopOutcomes) (closeOk : Bool) : ProxyState :=
  if s.isShuttingDown then s
  else
    let s1 := stopChildServer { s with isShuttingDown := true } o
    if closeOk then { s1 with serverOpen := false } else s1

/-- Field values of a freshly constructed `MCPProxy`. -/
def initialState : ProxyState :=
  { childClient := false, childTransport := false, childTools := [],
    handlerClient := false, handlerTools := [], restartInProgress := false,
    isShuttingDown := false, serverOpen := false, lastSpawn := none }

/-- Success text returned by the restart tool. -/
def restartSuccessText : String :=
  "Child MCP server restarted successfully. New capabilities have been loaded."

/-- `handleRestartServer`: read the optional `force` argument (`args?.force
|| false`, used only in the log line), set `restartInProgress`, restart the
child, and return a structured `CallToolResult`: the success text, or — for
any caught error — a failure text with `isError = true`, also clearing
`restartInProgress`.  The source catches every error, so the model is a
total function: the tool call itself never throws. -/
def handleRestartServer (cfg : ProxyConfig) (forceArg : Option Bool) (s : ProxyState)
    (b : ChildBehavior) (o : StopOutcomes) : RestartCall :=
  let force := forceArg.getD false
  let logEv := Event.logRestart force
  let s1 := { s with restartInProgress := true }
  let r := startChildServer cfg s1 b o
  match r.error with
  | none =>
    { result := { text := restartSuccessText, isError := false }
      state := r.state
      events := logEv :: r.events }
  | some e =>
    { result := { text := "Failed to restart child server: " ++ e.message, isError := true }
      state := { r.state with restartInProgress := false }
      events := logEv :: r.events }

/-- Modelled from the spec: the synthetic restart tool descriptor
(`PROXY_TOOLS.RESTART_SERVER`; src `constants.ts` is absent), named
`restart_server` per spec §6. -/
def restartServerTool : Tool := { name := "restart_server" }

/-- Modelled from the spec: `ToolRequestHandler.handleListTools` (src
`handlers/` is absent) answers `list_tools` locally by merging the
handler's cached tool snapshot with the one synthetic restart tool,
forwarding nothing to the child (spec §4.1). -/
def handleListTools (s : ProxyState) : List Tool :=
  s.handlerTools ++ [restartServerTool]

/-- Process- and server-level events the proxy could react to. -/
inductive ProxyEvent
  | serverError
  | signal (name : String)
  | childExit (code : Int)
deriving DecidableEq, Repr

/-- The handlers `MCPProxy.setupErrorHandling` actually registers:
`server.onerror`, and `process.on` for SIGINT and SIGTERM.  No handler for
child process exit or child transport closure is registered anywhere in the
class. -/
inductive RegisteredHandler
  | onServerError
  | onSignal (name : String)
deriving DecidableEq, Repr

def registeredHandlers : List RegisteredHandler :=
  [RegisteredHandler.onServerError, RegisteredHandler.onSignal "SIGINT",
   RegisteredHandler.onSignal "SIGTERM"]

def handlerMatches : RegisteredHandler → ProxyEvent → Bool
  | .onServerError, .serverError => true
  | .onServerError, _ => false
  | .onSignal n, .signal m => n == m
  | .onSignal _, _ => false

/-- What a fired handler does: `onerror` only logs; a termination signal
runs `handleShutdown` (graceful `stop()` and process exit). -/
structure Reaction where
  shutsDown : Bool
  scheduledRestartDelayMs : Option Nat
deriving DecidableEq, Repr

def runRegisteredHandler : RegisteredHandler → ProxyConfig → Reaction
  | .onServerError, _ => { shutsDown := false, scheduledRestartDelayMs := none }
  | .onSignal _, _ => { shutsDown := true, scheduledRestartDelayMs := none }

/-- Dispatch an event to every matching registered handler and collect the
reactions. -/
def dispatch (cfg : ProxyConfig) (e : ProxyEvent) : List Reaction :=
  (registeredHandlers.filter (fun h => handlerMatches h e)).map
    (fun h => runRegisteredHandler h cfg)

/-- A configuration with auto-restart enabled and a finite timeout, as the
CLI environment variables would produce. -/
def sampleConfig : ProxyConfig :=
  { childCommand := "node", childArgs := ["server.js"], autoRestart := true,
    maxRestarts := 3, restartDelay := 1000, restartTimeout := 30000 }

/-- A proxy at steady state: connected child advertising one tool. -/
def connectedState : ProxyState :=
  { childClient := true, childTransport := true, childTools := [{ name := "old_tool" }],
    handlerClient := true, handlerTools := [{ name := "old_tool" }],
    restartInProgress := false, isShuttingDown := false, serverOpen := true,
    lastSpawn := some ("node", ["server.js"]) }

/-- The same steady state with a restart already in progress. -/
def inRestartState : ProxyState := { connectedState with restartInProgress := true }

/-- A healthy reconnect cycle: the new child advertises one new tool. -/
def goodBehavior : ChildBehavior :=
  { connectOk := true, connectMs := 50, connectErr := "",
    listTools := ListToolsOutcome.ok [{ name := "new_tool" }] }

/-- A reconnect where the child answers `tools/list` with MethodNotFound. -/
def nfBehavior : ChildBehavior :=
  { goodBehavior with
    listTools := ListToolsOutcome.err (ChildError.mcp methodNotFoundCode "Method not found") }

/-- A reconnect where the child's `tools/list` fails with some other error. -/
def badBehavior : ChildBehavior :=
  { goodBehavior with listTools := ListToolsOutcome.err (ChildError.plain "boom") }

/-- A reconnect whose spawn/handshake fails outright. -/
def crashBehavior : ChildBehavior :=
  { connectOk := false, connectMs := 0, connectErr := "spawn ENOENT",
    listTools := ListToolsOutcome.ok [] }

/-- A healthy reconnect whose handshake takes two minutes. -/
def slowBehavior : ChildBehavior := { goodBehavior with connectMs := 120000 }

def bothClosesOk : StopOutcomes := { clientCloseOk := true, transportCloseOk := true }

def bothClosesFail : StopOutcomes := { clientCloseOk := false, transportCloseOk := false }

/-- A proxy on which `stop()` has already run. -/
def stoppedState : ProxyState := { initialState with isShuttingDown := true }

/-! ### Helper lemmas about field preservation -/

@[simp] theorem stopChildServer_restartInProgress (s : ProxyState) (o : StopOutcomes) :
    (stopChildServer s o).restartInProgress = s.restartInProgress := by
  unfold stopChildServer updateHandlersWithChildClient
  dsimp only
  split <;> split <;> rfl

@[simp] theorem stopChildServer_isShuttingDown (s : ProxyState) (o : StopOutcomes) :
    (stopChildServer s o).isShuttingDown = s.isShuttingDown := by
  unfold stopChildServer updateHandlersWithChildClient
  dsimp only
  split <;> split <;> rfl

@[simp] theorem stopChildServer_serverOpen (s : ProxyState) (o : StopOutcomes) :
    (stopChildServer s o).serverOpen = s.serverOpen := by
  unfold stopChildServer updateHandlersWithChildClient
  dsimp only
  split <;> split <;> rfl

@[simp] theorem mirrorChildCapabilities_serverOpen (s : ProxyState) (lt : ListToolsOutcome) :
    (mirrorChildCapabilities s lt).state.serverOpen = s.serverOpen := by
  unfold mirrorChildCapabilities updateHandlersWithChildClient
  dsimp only
  split
  · rfl
  · split <;> split <;> first | rfl | (split <;> rfl)

@[simp] theorem mirrorChildCapabilities_isShuttingDown (s : ProxyState) (lt : ListToolsOutcome) :
    (mirrorChildCapabilities s lt).state.isShuttingDown = s.isShuttingDown := by
  unfold mirrorChildCapabilities updateHandlersWithChildClient
  dsimp only
  split
  · rfl
  · split <;> split <;> first | rfl | (split <;> rfl)

@[simp] theorem startChildServer_serverOpen (cfg : ProxyConfig) (s : ProxyState)
    (b : ChildBehavior) (o : StopOutcomes) :
    (startChildServer cfg s b o).state.serverOpen = s.serverOpen := by
  unfold startChildServer
  split
  · rw [mirrorChildCapabilities_serverOpen]
    exact stopChildServer_serverOpen s o
  · exact stopChildServer_serverOpen s o

@[simp] theorem startChildServer_isShuttingDown (cfg : ProxyConfig) (s : ProxyState)
    (b : ChildBehavior) (o : StopOutcomes) :
    (startChildServer cfg s b o).state.isShuttingDown = s.isShuttingDown := by
  unfold startChildServer
  split
  · rw [mirrorChildCapabilities_isShuttingDown]
    exact stopChildServer_isShuttingDown s o
  · exact stopChildServer_isShuttingDown s o

/-! ### Claim theorems -/

/-- C8: `stopChildServer` always leaves the local tool cache empty before
returning, for every prior state and regardless of whether closing the
child client or the child transport fails. -/
theorem stop_child_resets_tool_cache (s : ProxyState) (o : StopOutcomes) :
    (stopChildServer s o).childTools = [] := rfl

/-- C9: calling `stop` on a proxy that is already shutting down returns
immediately, changing nothing; the model being a total function reflects
that the early return cannot raise an error. -/
theorem stop_idempotent_when_shutting_down (s : ProxyState) (o : StopOutcomes)
    (c : Bool) (h : s.isShuttingDown = true) : stop s o c = s := by
  unfold stop
  rw [h]
  simp

/-- Witness for C9 at a concrete already-stopped state. -/
theorem stop_idempotent_when_shutting_down_witness :
    stop stoppedState bothClosesOk true = stoppedState :=
  stop_idempotent_when_shutting_down stoppedState bothClosesOk true rfl

/-- C1 counterexample: a `restart_server` call arriving while a restart is
already in progress (`restartInProgress = true`) is not rejected with any
conflict error: it returns the plain success result and carries out the
restart (the cache now holds the new child's tool). -/
theorem restart_during_restart_not_rejected_cex :
    (handleRestartServer sampleConfig none inRestartState goodBehavior bothClosesOk).result =
      { text := restartSuccessText, isError := false } ∧
    (handleRestartServer sampleConfig none inRestartState goodBehavior bothClosesOk).state.childTools =
      [{ name := "new_tool" }] := by
  exact ⟨rfl, rfl⟩

/-- C1 (amended): `handleRestartServer` has no guard on
`restartInProgress`; it unconditionally sets the flag and proceeds, so a
request issued during an in-progress restart behaves exactly as one issued
when idle — the two restarts interleave rather than one being rejected. -/
theorem restart_independent_of_in_progress_flag (cfg : ProxyConfig) (f : Option Bool)
    (s : ProxyState) (b : ChildBehavior) (o : StopOutcomes) :
    handleRestartServer cfg f { s with restartInProgress := true } b o =
      handleRestartServer cfg f { s with restartInProgress := false } b o := rfl

/-- C2: `MCPProxy` registers no handler for a child process exit, so an
unexpected exit produces no reaction at all — in particular no restart is
scheduled after `restartDelay` — even under a configuration with
`autoRestart = true` and a positive `maxRestarts`. -/
theorem child_exit_triggers_no_handler :
    dispatch sampleConfig (ProxyEvent.childExit 1) = [] ∧
    sampleConfig.autoRestart = true ∧ 0 < sampleConfig.maxRestarts := by
  refine ⟨rfl, rfl, ?_⟩
  decide

/-- C7: `restartTimeout` is never consulted: a restart whose handshake takes
four times the configured deadline still completes successfully (no abort,
child connected), and lowering the deadline to one millisecond changes
nothing about the outcome. -/
theorem restart_timeout_never_enforced :
    sampleConfig.restartTimeout < slowBehavior.connectMs ∧
    (startChildServer sampleConfig connectedState slowBehavior bothClosesOk).error = none ∧
    (startChildServer sampleConfig connectedState slowBehavior bothClosesOk).state.childClient = true ∧
    startChildServer { sampleConfig with restartTimeout := 1 } connectedState slowBehavior bothClosesOk =
      startChildServer sampleConfig connectedState slowBehavior bothClosesOk := by
  refine ⟨by decide, rfl, rfl, rfl⟩

/-- C3 counterexample: a client-triggered restart whose reconnect succeeds
but whose tool query answers MethodNotFound completes successfully, yet
emits zero list-changed notifications — not one per capability category. -/
theorem degraded_restart_emits_no_notifications_cex :
    (handleRestartServer sampleConfig none connectedState nfBehavior bothClosesOk).result.isError
      = false ∧
    ((handleRestartServer sampleConfig none connectedState nfBehavior bothClosesOk).events.filter
      Event.isListChanged) = [] := by
  exact ⟨rfl, rfl⟩

/-- C10: the optional `force` argument of the restart tool has no effect
beyond the log line: for any two values (including absence) the returned
tool result, the final state, and all non-log events coincide. -/
theorem force_flag_no_effect (cfg : ProxyConfig) (f1 f2 : Option Bool)
    (s : ProxyState) (b : ChildBehavior) (o : StopOutcomes) :
    (handleRestartServer cfg f1 s b o).result = (handleRestartServer cfg f2 s b o).result ∧
    (handleRestartServer cfg f1 s b o).state = (handleRestartServer cfg f2 s b o).state ∧
    ((handleRestartServer cfg f1 s b o).events.filter fun e => !e.isLog) =
      ((handleRestartServer cfg f2 s b o).events.filter fun e => !e.isLog) := by
  unfold handleRestartServer
  dsimp only
  cases h : (startChildServer cfg { s with restartInProgress := true } b o).error <;>
    simp [h, Event.isLog]

/-- C3 (amended): list-changed notifications for tools, prompts and
resources are emitted exactly once each per completed restart cycle whose
capability query succeeded; the very first startup emits none; and a
restart whose tool query degrades with MethodNotFound still completes
successfully but emits none. -/
theorem notifications_once_per_successful_refresh (cfg : ProxyConfig) (f : Option Bool)
    (s : ProxyState) (b : ChildBehavior) (o : StopOutcomes) (ts : List Tool) (e : ChildError) :
    (b.connectOk = true → b.listTools = ListToolsOutcome.ok ts →
      (handleRestartServer cfg f s b o).events.filter Event.isListChanged =
        [Event.listChanged CapCategory.tools, Event.listChanged CapCategory.prompts,
         Event.listChanged CapCategory.resources]) ∧
    ((start cfg initialState b o).events.filter Event.isListChanged = []) ∧
    (b.connectOk = true → b.listTools = ListToolsOutcome.err e → e.isMethodNotFound = true →
      (handleRestartServer cfg f s b o).result.isError = false ∧
      (handleRestartServer cfg f s b o).events.filter Event.isListChanged = []) := by
  refine ⟨?_, ?_, ?_⟩
  · intro h1 h2
    simp [handleRestartServer, startChildServer, mirrorChildCapabilities,
          updateHandlersWithChildClient, h1, h2, notifyCapabilityChanges, Event.isListChanged]
  · cases hco : b.connectOk
    · simp [start, startChildServer, hco]
    · cases hlt : b.listTools with
      | ok ts2 =>
        simp [start, startChildServer, mirrorChildCapabilities,
              updateHandlersWithChildClient, hco, hlt, initialState]
      | err e2 =>
        cases hmn : e2.isMethodNotFound <;>
          simp [start, startChildServer, mirrorChildCapabilities,
                updateHandlersWithChildClient, hco, hlt, hmn, initialState]
  · intro h1 h2 h3
    constructor <;>
      simp [handleRestartServer, startChildServer, mirrorChildCapabilities,
            updateHandlersWithChildClient, h1, h2, h3, Event.isListChanged]

/-- Witness for C3 (amended): the three conjuncts at concrete inputs — a
healthy restart, a first startup, and a MethodNotFound-degraded restart. -/
theorem notifications_once_per_successful_refresh_witness :
    ((handleRestartServer sampleConfig none connectedState goodBehavior bothClosesOk).events.filter
        Event.isListChanged =
      [Event.listChanged CapCategory.tools, Event.listChanged CapCategory.prompts,
       Event.listChanged CapCategory.resources]) ∧
    ((start sampleConfig initialState goodBehavior bothClosesOk).events.filter
        Event.isListChanged = []) ∧
    (handleRestartServer sampleConfig none connectedState nfBehavior bothClosesOk).result.isError
      = false := by
  refine ⟨?_, ?_, ?_⟩
  · exact (notifications_once_per_successful_refresh sampleConfig none connectedState
      goodBehavior bothClosesOk [{ name := "new_tool" }] (ChildError.plain "x")).1 rfl rfl
  · exact (notifications_once_per_successful_refresh sampleConfig none connectedState
      goodBehavior bothClosesOk [] (ChildError.plain "x")).2.1
  · exact ((notifications_once_per_successful_refresh sampleConfig none connectedState
      nfBehavior bothClosesOk [] (ChildError.mcp methodNotFoundCode "Method not found")).2.2
      rfl rfl (by decide)).1

/-- C4: after a successful restart, answering `list_tools` from the local
cache yields exactly the new child's advertised tools followed by the one
synthetic `restart_server` descriptor; nothing is forwarded to the child. -/
theorem list_tools_after_restart (cfg : ProxyConfig) (f : Option Bool) (s : ProxyState)
    (b : ChildBehavior) (o : StopOutcomes) (ts : List Tool)
    (h1 : b.connectOk = true) (h2 : b.listTools = ListToolsOutcome.ok ts) :
    handleListTools (handleRestartServer cfg f s b o).state = ts ++ [restartServerTool] := by
  simp [handleListTools, handleRestartServer, startChildServer, mirrorChildCapabilities,
        updateHandlersWithChildClient, h1, h2]

/-- Witness for C4 at a concrete successful restart. -/
theorem list_tools_after_restart_witness :
    handleListTools (handleRestartServer sampleConfig none connectedState goodBehavior
        bothClosesOk).state = [{ name := "new_tool" }] ++ [restartServerTool] :=
  list_tools_after_restart sampleConfig none connectedState goodBehavior bothClosesOk
    [{ name := "new_tool" }] rfl rfl

/-- C5: when the child's tool query fails with MethodNotFound, the
(re)start completes without error and the cached snapshot is empty; any
other query failure propagates out of `startChildServer` as that error. -/
theorem method_not_found_degrades_softly (cfg : ProxyConfig) (s : ProxyState)
    (b : ChildBehavior) (o : StopOutcomes) (e : ChildError)
    (hc : b.connectOk = true) (hl : b.listTools = ListToolsOutcome.err e) :
    (e.isMethodNotFound = true →
      (startChildServer cfg s b o).error = none ∧
      (startChildServer cfg s b o).state.childTools = []) ∧
    (e.isMethodNotFound = false →
      (startChildServer cfg s b o).error = some (ProxyError.child e)) := by
  constructor
  · intro h
    constructor <;>
      simp [startChildServer, mirrorChildCapabilities, updateHandlersWithChildClient,
            hc, hl, h, apply_ite ProxyState.childTools]
  · intro h
    simp [startChildServer, mirrorChildCapabilities, updateHandlersWithChildClient,
          hc, hl, h]

/-- Witness for C5: a MethodNotFound child degrades softly, another error
propagates, at concrete inputs. -/
theorem method_not_found_degrades_softly_witness :
    ((startChildServer sampleConfig connectedState nfBehavior bothClosesOk).error = none ∧
      (startChildServer sampleConfig connectedState nfBehavior bothClosesOk).state.childTools
        = []) ∧
    (startChildServer sampleConfig connectedState badBehavior bothClosesOk).error =
      some (ProxyError.child (ChildError.plain "boom")) := by
  refine ⟨(method_not_found_degrades_softly sampleConfig connectedState nfBehavior bothClosesOk
      (ChildError.mcp methodNotFoundCode "Method not found") rfl rfl).1 (by decide),
    (method_not_found_degrades_softly sampleConfig connectedState badBehavior bothClosesOk
      (ChildError.plain "boom") rfl rfl).2 (by decide)⟩

/-- C6: whenever the underlying restart fails — with any error — the
restart tool call still returns a structured result marked `isError` whose
text wraps the error message, and it leaves the upstream server connection
and the shutdown flag untouched; the model being a total function reflects
that the source catches every error rather than throwing. -/
theorem failed_restart_returns_error_result (cfg : ProxyConfig) (f : Option Bool)
    (s : ProxyState) (b : ChildBehavior) (o : StopOutcomes) (e : ProxyError)
    (h : (startChildServer cfg { s with restartInProgress := true } b o).error = some e) :
    (handleRestartServer cfg f s b o).result.isError = true ∧
    (handleRestartServer cfg f s b o).result.text =
      "Failed to restart child server: " ++ e.message ∧
    (handleRestartServer cfg f s b o).state.serverOpen = s.serverOpen ∧
    (handleRestartServer cfg f s b o).state.isShuttingDown = s.isShuttingDown := by
  unfold handleRestartServer
  dsimp only
  rw [h]
  simp

/-- Witness for C6 at a concrete spawn failure. -/
theorem failed_restart_returns_error_result_witness :
    (handleRestartServer sampleConfig none connectedState crashBehavior bothClosesOk).result.isError
        = true ∧
    (handleRestartServer sampleConfig none connectedState crashBehavior bothClosesOk).result.text =
      "Failed to restart child server: " ++ (ProxyError.connectFailure "spawn ENOENT").message ∧
    (handleRestartServer sampleConfig none connectedState crashBehavior
        bothClosesOk).state.serverOpen = connectedState.serverOpen ∧
    (handleRestartServer sampleConfig none connectedState crashBehavior
        bothClosesOk).state.isShuttingDown = connectedState.isShuttingDown :=
  failed_restart_returns_error_result sampleConfig none connectedState crashBehavior bothClosesOk
    (ProxyError.connectFailure "spawn ENOENT") rfl

end Reloaderoo
